import Mathlib

/-!
Verification development for `FilePerUserClientData`
(`tensorflow_federated/python/simulation/file_per_user_client_data.py`).

The adapter maps a list of client identifiers and a conversion function
(`create_tf_dataset_fn`) to per-client datasets, capturing the first
client's element type/shape signature at construction and validating every
subsequently produced dataset against it.

The embedding translates the Python module shallowly:
* datasets are records carrying an opaque handle and two nested descriptor
  trees (`output_types`, `output_shapes`);
* the `nest` collaborator's structure check and depth-first left-to-right
  flattening are `sameStructure` and `flatten` over `Nest`;
* Python's dynamic argument checks are modelled by `PyIds` (a value that may
  or may not be a `list`) and `PyFn` (a value that may or may not be
  callable);
* fallible calls return `Except`; errors raised by the injected conversion
  function (including the directory factory's `KeyError`) are
  `CollabError`s, the adapter's own errors are `FedError`s.
-/

/-- Client identifiers are opaque tokens; the source uses strings
(filenames). -/
abbrev ClientId := String

/-- Element-type tags (`tf.int32`, ...), opaque to the adapter; compared by
equality. -/
abbrev DType := String

/-- One dimension of a shape descriptor. Modelled from the spec: a wildcard
dimension is an opaque placeholder meaning "size not statically known"; the
`tag` distinguishes placeholder objects without making them comparable
concrete values (the tensor runtime that realises them is an external
collaborator, outside this repository's sources). -/
inductive Dim where
  | known (n : Nat)
  | unknown (tag : Nat)
deriving DecidableEq, Repr

/-- A shape descriptor: a (known-rank) list of dimensions. -/
abbrev Shape := List Dim

/-- Modelled from the spec: inequality of two dimensions as the external
shape collaborator reports it — two concrete dimensions are unequal when
their sizes differ; a wildcard dimension is never reported unequal to
anything (it is not compared as a concrete value). -/
def dimNe : Dim → Dim → Bool
  | Dim.known a, Dim.known b => a != b
  | _, _ => false

/-- Modelled from the spec: inequality of two shape-descriptor leaves — the
shapes are unequal when their ranks differ, or some position holds two
concrete dimensions of different sizes. -/
def shapeNe (s t : Shape) : Bool :=
  s.length != t.length || (List.zip s t).any fun p => dimNe p.1 p.2

/-- Inequality of element-type leaves: plain `!=` on type tags. -/
def dtypeNe (a b : DType) : Bool := a != b

/-- A leaf value carried by a mismatch error: either an element-type tag
or a shape descriptor (the two kinds of tree the adapter compares). -/
inductive Leaf where
  | dtype (t : DType)
  | shape (s : Shape)
deriving DecidableEq, Repr

/-- A failure raised by the injected conversion function (the spec's
`CollaboratorFailure`): a `KeyError` escaping the directory factory's
identifier-to-path dictionary lookup, or any other collaborator error,
carried opaquely. -/
inductive CollabError where
  | keyError (id : ClientId)
  | ioError (code : Nat)
deriving DecidableEq, Repr

/-- The adapter's error domain. The first three are the constructor's own
argument-check failures (`py_typecheck.check_type(client_ids, list)`, the
explicit emptiness `ValueError`, `py_typecheck.check_callable`);
`structureMismatch` is `nest.assert_same_structure`'s failure; `mismatch`
is the `ValueError('{x} != {y} for client with id [{id}]')` raised by
`_assert_nested_equal`; `collab` carries a conversion-function failure
through unchanged. -/
inductive FedError where
  | invalidArgumentNotList
  | invalidArgumentEmpty
  | invalidArgumentNotCallable
  | structureMismatch
  | mismatch (x y : Leaf) (id : ClientId)
  | collab (e : CollabError)
deriving DecidableEq, Repr

/-- The spec's `InvalidArgument` class: the constructor's argument-check
failures. -/
def FedError.isInvalidArgument : FedError → Bool
  | FedError.invalidArgumentNotList => true
  | FedError.invalidArgumentEmpty => true
  | FedError.invalidArgumentNotCallable => true
  | _ => false

/-- A nested descriptor tree, as `tensorflow.python.util.nest` traverses it:
a leaf value, or an ordered container of subtrees. -/
inductive Nest (α : Type) where
  | leaf (v : α)
  | node (children : List (Nest α))
deriving Repr

mutual

/-- `nest.assert_same_structure`'s test: the two trees have the same
container arity and nesting depth at every position. -/
def sameStructure {α β : Type} : Nest α → Nest β → Bool
  | Nest.leaf _, Nest.leaf _ => true
  | Nest.node xs, Nest.node ys => sameStructureList xs ys
  | Nest.leaf _, Nest.node _ => false
  | Nest.node _, Nest.leaf _ => false

/-- Pointwise structure test on the children lists. -/
def sameStructureList {α β : Type} : List (Nest α) → List (Nest β) → Bool
  | [], [] => true
  | x :: xs, y :: ys => sameStructure x y && sameStructureList xs ys
  | [], _ :: _ => false
  | _ :: _, [] => false

end

mutual

/-- `nest.flatten`: the leaves of a tree in depth-first, left-to-right
order. -/
def flatten {α : Type} : Nest α → List α
  | Nest.leaf v => [v]
  | Nest.node xs => flattenList xs

/-- The concatenated leaves of a list of trees, in order. -/
def flattenList {α : Type} : List (Nest α) → List α
  | [] => []
  | x :: xs => flatten x ++ flattenList xs

end

/-- The first pair of positionally aligned leaves the comparison loop
(`for x, y in zip(flat_x, flat_y): if x != y: raise`) finds unequal, if
any: the loop short-circuits there. -/
def firstNe {α : Type} (ne : α → α → Bool) : List α → List α → Option (α × α)
  | x :: xs, y :: ys => if ne x y then some (x, y) else firstNe ne xs ys
  | _, _ => none

/-- `_assert_nested_equal(nested_x, nested_y)` (closed over `client_id`):
first `nest.assert_same_structure`, then flatten both trees and compare
leaves pairwise by position, raising at the first unequal pair with both
leaf values and the client identifier. -/
def assert_nested_equal {α : Type} (ne : α → α → Bool) (toLeaf : α → Leaf)
    (client_id : ClientId) (nested_x nested_y : Nest α) : Except FedError Unit :=
  if sameStructure nested_x nested_y then
    match firstNe ne (flatten nested_x) (flatten nested_y) with
    | some p => Except.error (FedError.mismatch (toLeaf p.1) (toLeaf p.2) client_id)
    | none => Except.ok ()
  else Except.error FedError.structureMismatch

/-- A dataset handle: opaque identity (`handle`) plus the two descriptor
trees the adapter reads (`output_types`, `output_shapes`). -/
structure Dataset where
  handle : Nat
  output_types : Nest DType
  output_shapes : Nest Shape

/-- The adapter's fields after a successful `__init__`:
the stored identifier list, the stored conversion function, and the probe
dataset's recorded signatures (exposed read-only by the `client_ids`,
`output_types` and `output_shapes` properties). -/
structure FilePerUserClientData where
  client_ids : List ClientId
  create_tf_dataset_fn : ClientId → Except CollabError Dataset
  output_types : Nest DType
  output_shapes : Nest Shape

/-- The dynamic value passed as `client_ids`: a `list`, or a value of
another container kind (`py_typecheck.check_type(client_ids, list)` only
accepts the first). -/
inductive PyIds where
  | list (ids : List ClientId)
  | tuple (ids : List ClientId)
  | other

/-- The dynamic value passed as `create_tf_dataset_fn`: callable or not
(`py_typecheck.check_callable` only accepts the first). -/
inductive PyFn where
  | callable (f : ClientId → Except CollabError Dataset)
  | notCallable

/-- `FilePerUserClientData.__init__`: check `client_ids` is a `list`, check
it is non-empty, check `create_tf_dataset_fn` is callable, store both, then
probe the first identifier's dataset and record its `output_types` and
`output_shapes` as the reference signature. A probe failure propagates as a
construction failure. -/
def FilePerUserClientData.init (client_ids : PyIds) (create_tf_dataset_fn : PyFn) :
    Except FedError FilePerUserClientData :=
  match client_ids with
  | PyIds.list ids =>
    match ids with
    | [] => Except.error FedError.invalidArgumentEmpty
    | id0 :: rest =>
      match create_tf_dataset_fn with
      | PyFn.callable f =>
        match f id0 with
        | Except.error e => Except.error (FedError.collab e)
        | Except.ok tf_dataset =>
          Except.ok
            { client_ids := id0 :: rest
              create_tf_dataset_fn := f
              output_types := tf_dataset.output_types
              output_shapes := tf_dataset.output_shapes }
      | PyFn.notCallable => Except.error FedError.invalidArgumentNotCallable
  | PyIds.tuple _ => Except.error FedError.invalidArgumentNotList
  | PyIds.other => Except.error FedError.invalidArgumentNotList

/-- `__init__` with an invocation trace: the second component lists, in
order, the arguments the conversion function is applied to during
construction (the body has a single call site, reached once, on
`client_ids[0]`). -/
def FilePerUserClientData.initTrace (client_ids : PyIds) (create_tf_dataset_fn : PyFn) :
    Except FedError FilePerUserClientData × List ClientId :=
  match client_ids with
  | PyIds.list ids =>
    match ids with
    | [] => (Except.error FedError.invalidArgumentEmpty, [])
    | id0 :: rest =>
      match create_tf_dataset_fn with
      | PyFn.callable f =>
        (match f id0 with
         | Except.error e => Except.error (FedError.collab e)
         | Except.ok tf_dataset =>
           Except.ok
             { client_ids := id0 :: rest
               create_tf_dataset_fn := f
               output_types := tf_dataset.output_types
               output_shapes := tf_dataset.output_shapes },
         [id0])
      | PyFn.notCallable => (Except.error FedError.invalidArgumentNotCallable, [])
  | PyIds.tuple _ => (Except.error FedError.invalidArgumentNotList, [])
  | PyIds.other => (Except.error FedError.invalidArgumentNotList, [])

/-- `create_tf_dataset_for_client(client_id)`: produce the candidate dataset
with the stored conversion function, assert its `output_types` and then its
`output_shapes` nested-equal to the recorded reference, and return the
candidate unchanged. -/
def FilePerUserClientData.create_tf_dataset_for_client
    (self : FilePerUserClientData) (client_id : ClientId) : Except FedError Dataset :=
  match self.create_tf_dataset_fn client_id with
  | Except.error e => Except.error (FedError.collab e)
  | Except.ok tf_dataset =>
    match assert_nested_equal dtypeNe Leaf.dtype client_id
        tf_dataset.output_types self.output_types with
    | Except.error e => Except.error e
    | Except.ok _ =>
      match assert_nested_equal shapeNe Leaf.shape client_id
          tf_dataset.output_shapes self.output_shapes with
      | Except.error e => Except.error e
      | Except.ok _ => Except.ok tf_dataset

/-- `create_tf_dataset_for_client` instrumented with the method's effects:
the result, the adapter's fields after the call (the body assigns to no
field, so every exit leaves them as they were), and the arguments the
stored conversion function is applied to during the call (a single
unconditional call site on `client_id`, before validation). -/
def FilePerUserClientData.create_tf_dataset_for_client_traced
    (self : FilePerUserClientData) (client_id : ClientId) :
    Except FedError Dataset × FilePerUserClientData × List ClientId :=
  match self.create_tf_dataset_fn client_id with
  | Except.error e => (Except.error (FedError.collab e), self, [client_id])
  | Except.ok tf_dataset =>
    match assert_nested_equal dtypeNe Leaf.dtype client_id
        tf_dataset.output_types self.output_types with
    | Except.error e => (Except.error e, self, [client_id])
    | Except.ok _ =>
      match assert_nested_equal shapeNe Leaf.shape client_id
          tf_dataset.output_shapes self.output_shapes with
      | Except.error e => (Except.error e, self, [client_id])
      | Except.ok _ => (Except.ok tf_dataset, self, [client_id])

/-- `os.path.join(path, filename)` for the factory's simple case (a
directory path joined with an entry name). -/
def joinPath (path filename : String) : String := path ++ "/" ++ filename

/-- One step of Python dict insertion: an existing key keeps its position
and takes the new value, a new key is appended (insertion order). -/
def dictInsert (d : List (ClientId × String)) (k : ClientId) (v : String) :
    List (ClientId × String) :=
  if d.any fun p => p.1 == k then
    d.map fun p => if p.1 == k then (p.1, v) else p
  else d ++ [(k, v)]

/-- The factory's dict comprehension
`{filename: os.path.join(path, filename) for filename in os.listdir(path)}`
as an insertion-ordered dictionary. -/
def dictComp (path : String) (entries : List String) : List (ClientId × String) :=
  entries.foldl (fun d filename => dictInsert d filename (joinPath path filename)) []

/-- Dict subscript lookup `d[k]`: the stored value, or `none` (a `KeyError`)
when the key is absent. -/
def dictLookup (d : List (ClientId × String)) (k : ClientId) : Option String :=
  (d.find? fun p => p.1 == k).map Prod.snd

/-- `FilePerUserClientData.create_from_dir(path, create_tf_dataset_fn)`:
build the identifier-to-path dictionary from the directory listing
(`entries` stands for `os.listdir(path)`, the filesystem collaborator's
answer), then construct the adapter from the dictionary's key list and the
closure `lambda id: create_tf_dataset_fn(client_ids_to_paths_dict[id])`;
the closure's failed subscript raises `KeyError`. -/
def FilePerUserClientData.create_from_dir (path : String) (entries : List String)
    (create_tf_dataset_fn : String → Except CollabError Dataset) :
    Except FedError FilePerUserClientData :=
  let client_ids_to_paths_dict := dictComp path entries
  FilePerUserClientData.init
    (PyIds.list (client_ids_to_paths_dict.map Prod.fst))
    (PyFn.callable fun id =>
      match dictLookup client_ids_to_paths_dict id with
      | some p => create_tf_dataset_fn p
      | none => Except.error (CollabError.keyError id))

/-- Modelled from the spec: two shape-descriptor leaves that "differ only in
wildcard dimension placeholders occupying the same structural positions" —
same rank, and at each position either two equal concrete dimensions or two
wildcard placeholders (of any identity). -/
def dimCompat : Dim → Dim → Bool
  | Dim.unknown _, Dim.unknown _ => true
  | Dim.known a, Dim.known b => a == b
  | _, _ => false

/-- Leafwise wildcard-compatibility of two shape descriptors. -/
def shapeCompat (s t : Shape) : Bool :=
  s.length == t.length && (List.zip s t).all fun p => dimCompat p.1 p.2

/-! ## Basic lemmas about the comparison primitives -/

theorem dtypeNe_self (a : DType) : dtypeNe a a = false := by
  simp [dtypeNe]

theorem dimNe_self (d : Dim) : dimNe d d = false := by
  cases d <;> simp [dimNe]

theorem zip_self_any_dimNe (s : Shape) :
    ((List.zip s s).any fun p => dimNe p.1 p.2) = false := by
  induction s with
  | nil => rfl
  | cons d s ih => simp [List.zip_cons_cons, dimNe_self, ih]

theorem shapeNe_self (s : Shape) : shapeNe s s = false := by
  simp [shapeNe, zip_self_any_dimNe]

theorem firstNe_self {α : Type} (ne : α → α → Bool) (h : ∀ a, ne a a = false)
    (l : List α) : firstNe ne l l = none := by
  induction l with
  | nil => rfl
  | cons x xs ih => simp [firstNe, h x, ih]

mutual

theorem sameStructure_refl {α : Type} : ∀ x : Nest α, sameStructure x x = true
  | Nest.leaf _ => rfl
  | Nest.node xs => by simp [sameStructure, sameStructureList_refl xs]

theorem sameStructureList_refl {α : Type} :
    ∀ xs : List (Nest α), sameStructureList xs xs = true
  | [] => rfl
  | x :: xs => by
      simp [sameStructureList, sameStructure_refl x, sameStructureList_refl xs]

end

theorem assert_nested_equal_refl {α : Type} (ne : α → α → Bool) (toLeaf : α → Leaf)
    (h : ∀ a, ne a a = false) (client_id : ClientId) (x : Nest α) :
    assert_nested_equal ne toLeaf client_id x x = Except.ok () := by
  simp [assert_nested_equal, sameStructure_refl, firstNe_self ne h]

/-- The leaves of `xs` and `ys` strictly before position `i` are pairwise
not unequal (the comparison loop does not stop before `i`). -/
def agreeBefore {α : Type} (ne : α → α → Bool) (xs ys : List α) (i : Nat) : Prop :=
  ∀ j, j < i → ∀ a b, xs.get? j = some a → ys.get? j = some b → ne a b = false

theorem firstNe_eq_some {α : Type} (ne : α → α → Bool) (i : Nat) (xs ys : List α)
    (a b : α) (hagree : agreeBefore ne xs ys i)
    (ha : xs.get? i = some a) (hb : ys.get? i = some b) (hne : ne a b = true) :
    firstNe ne xs ys = some (a, b) := by
  induction i generalizing xs ys with
  | zero =>
    cases xs with
    | nil => simp at ha
    | cons x xs =>
      cases ys with
      | nil => simp at hb
      | cons y ys =>
        simp at ha hb
        subst ha; subst hb
        simp [firstNe, hne]
  | succ i ih =>
    cases xs with
    | nil => simp at ha
    | cons x xs =>
      cases ys with
      | nil => simp at hb
      | cons y ys =>
        have hxy : ne x y = false := hagree 0 (Nat.succ_pos i) x y rfl rfl
        simp [firstNe, hxy]
        exact ih xs ys
          (fun j hj a' b' ha' hb' =>
            hagree (j + 1) (Nat.succ_lt_succ hj) a' b' ha' hb')
          (by simpa using ha) (by simpa using hb)

theorem firstNe_none_of_forall₂ {α : Type} (ne : α → α → Bool) (xs ys : List α)
    (h : List.Forall₂ (fun a b => ne a b = false) xs ys) :
    firstNe ne xs ys = none := by
  induction h with
  | nil => rfl
  | cons hxy _ ih => simp [firstNe, hxy, ih]

theorem dimNe_eq_false_of_compat (a b : Dim) (h : dimCompat a b = true) :
    dimNe a b = false := by
  cases a <;> cases b <;> simp [dimCompat] at h ⊢ <;> simp [dimNe, h]

theorem shapeNe_eq_false_of_compat (s t : Shape) (h : shapeCompat s t = true) :
    shapeNe s t = false := by
  unfold shapeCompat at h
  rw [Bool.and_eq_true] at h
  unfold shapeNe
  rw [Bool.or_eq_false_iff]
  constructor
  · simp [Nat.beq_eq] at h ⊢
    exact h.1
  · rw [List.any_eq_false]
    intro p hp
    have := (List.all_eq_true.mp h.2) p hp
    simpa using dimNe_eq_false_of_compat p.1 p.2 (by simpa using this)

/-! ## Lemmas about construction and the directory factory -/

theorem initTrace_fst (ids : PyIds) (fn : PyFn) :
    (FilePerUserClientData.initTrace ids fn).1 = FilePerUserClientData.init ids fn := by
  cases ids with
  | list l =>
    cases l with
    | nil => rfl
    | cons id0 rest =>
      cases fn with
      | callable f =>
        cases hp : f id0 <;>
          simp [FilePerUserClientData.initTrace, FilePerUserClientData.init, hp]
      | notCallable => rfl
  | tuple l => rfl
  | other => rfl

theorem init_ok_inv (ids : List ClientId) (f : ClientId → Except CollabError Dataset)
    (cd : FilePerUserClientData)
    (h : FilePerUserClientData.init (PyIds.list ids) (PyFn.callable f) = Except.ok cd) :
    cd.client_ids = ids ∧ cd.create_tf_dataset_fn = f := by
  cases ids with
  | nil => simp [FilePerUserClientData.init] at h
  | cons id0 rest =>
    cases hp : f id0 with
    | error e => simp [FilePerUserClientData.init, hp] at h
    | ok ds =>
      simp [FilePerUserClientData.init, hp] at h
      subst h
      exact ⟨rfl, rfl⟩

theorem dictInsert_keys (d : List (ClientId × String)) (k : ClientId) (v : String) :
    ∀ x ∈ (dictInsert d k v).map Prod.fst, x ∈ d.map Prod.fst ∨ x = k := by
  intro x hx
  unfold dictInsert at hx
  split at hx
  · rw [List.map_map] at hx
    rcases List.mem_map.mp hx with ⟨p, hp, hpx⟩
    have hfst : (Prod.fst ∘ fun p : ClientId × String =>
        if p.1 == k then (p.1, v) else p) p = p.1 := by
      simp only [Function.comp]
      split <;> rfl
    rw [hfst] at hpx
    exact Or.inl (List.mem_map.mpr ⟨p, hp, hpx⟩)
  · rw [List.map_append] at hx
    rcases List.mem_append.mp hx with hx | hx
    · exact Or.inl hx
    · simp at hx
      exact Or.inr hx

theorem foldl_dictInsert_keys (path : String) (entries : List String) :
    ∀ (d : List (ClientId × String)),
      ∀ x ∈ ((entries.foldl
          (fun d filename => dictInsert d filename (joinPath path filename)) d).map
            Prod.fst),
        x ∈ d.map Prod.fst ∨ x ∈ entries := by
  induction entries with
  | nil => intro d x hx; exact Or.inl hx
  | cons e es ih =>
    intro d x hx
    rcases ih (dictInsert d e (joinPath path e)) x hx with hx' | hx'
    · rcases dictInsert_keys d e (joinPath path e) x hx' with hd | hk
      · exact Or.inl hd
      · exact Or.inr (hk ▸ List.mem_cons_self e es)
    · exact Or.inr (List.mem_cons_of_mem e hx')

theorem dictComp_keys_subset (path : String) (entries : List String) :
    ∀ x ∈ (dictComp path entries).map Prod.fst, x ∈ entries := by
  intro x hx
  rcases foldl_dictInsert_keys path entries [] x hx with h | h
  · simp at h
  · exact h

theorem dictLookup_none_of_not_key (d : List (ClientId × String)) (k : ClientId)
    (h : k ∉ d.map Prod.fst) : dictLookup d k = none := by
  unfold dictLookup
  have hf : d.find? (fun p => p.1 == k) = none := by
    rw [List.find?_eq_none]
    intro p hp hpk
    exact h (List.mem_map.mpr ⟨p, hp, beq_iff_eq.mp hpk⟩)
  rw [hf]
  rfl

theorem foldl_dictInsert_eq (path : String) (entries : List String) :
    ∀ d : List (ClientId × String), entries.Nodup →
      (∀ f ∈ entries, (d.any fun p => p.1 == f) = false) →
      entries.foldl (fun d filename => dictInsert d filename (joinPath path filename)) d
        = d ++ entries.map fun f => (f, joinPath path f) := by
  induction entries with
  | nil => intro d _ _; simp
  | cons e es ih =>
    intro d hnd hkeys
    have he : (d.any fun p => p.1 == e) = false := hkeys e (List.mem_cons_self e es)
    have hins : dictInsert d e (joinPath path e) = d ++ [(e, joinPath path e)] := by
      simp [dictInsert, he]
    have hkeys' : ∀ f ∈ es,
        ((d ++ [(e, joinPath path e)]).any fun p => p.1 == f) = false := by
      intro f hf
      rw [List.any_append, Bool.or_eq_false_iff]
      refine ⟨hkeys f (List.mem_cons_of_mem e hf), ?_⟩
      have hef : ¬(e = f) := fun hef => (List.nodup_cons.mp hnd).1 (hef ▸ hf)
      simp [hef]
    rw [List.foldl_cons, hins, ih _ (List.nodup_cons.mp hnd).2 hkeys']
    simp

theorem dictComp_eq_map (path : String) (entries : List String) (hnd : entries.Nodup) :
    dictComp path entries = entries.map fun f => (f, joinPath path f) := by
  unfold dictComp
  rw [foldl_dictInsert_eq path entries [] hnd (fun f _ => rfl)]
  rfl

theorem dictLookup_map_of_mem (path : String) (entries : List String) (f : String)
    (hf : f ∈ entries) :
    dictLookup (entries.map fun g => (g, joinPath path g)) f
      = some (joinPath path f) := by
  induction entries with
  | nil => cases hf
  | cons e es ih =>
    simp only [List.map_cons]
    unfold dictLookup
    by_cases he : (e == f) = true
    · rw [List.find?_cons_of_pos _ (by simpa using he)]
      have hef : e = f := beq_iff_eq.mp he
      subst hef
      rfl
    · rw [List.find?_cons_of_neg _ (by simpa using he)]
      have h1 : f ∈ es := by
        rcases List.mem_cons.mp hf with h1 | h1
        · exact absurd (by simp [h1]) he
        · exact h1
      exact ih h1

/-! ## Concrete sample data (spec section 8's scenario: `.rec` files whose
records are `int32` scalars, plus variants) -/

/-- A dataset of `int32` records of shape `[2]`. -/
def dsA : Dataset :=
  { handle := 1
    output_types := Nest.node [Nest.leaf "int32"]
    output_shapes := Nest.node [Nest.leaf [Dim.known 2]] }

/-- Same structure as `dsA` but element type `int64`. -/
def dsB : Dataset :=
  { handle := 2
    output_types := Nest.node [Nest.leaf "int64"]
    output_shapes := Nest.node [Nest.leaf [Dim.known 2]] }

/-- Differs from `dsA` in both element type and shape. -/
def dsC : Dataset :=
  { handle := 3
    output_types := Nest.node [Nest.leaf "int64"]
    output_shapes := Nest.node [Nest.leaf [Dim.known 3]] }

/-- `int32` records of shape `[?, 5]`, one wildcard placeholder. -/
def dsW1 : Dataset :=
  { handle := 4
    output_types := Nest.leaf "int32"
    output_shapes := Nest.leaf [Dim.unknown 0, Dim.known 5] }

/-- Like `dsW1` but with a different wildcard placeholder object. -/
def dsW2 : Dataset :=
  { handle := 5
    output_types := Nest.leaf "int32"
    output_shapes := Nest.leaf [Dim.unknown 7, Dim.known 5] }

/-- A conversion function producing `dsA` for every identifier. -/
def sampleFn : ClientId → Except CollabError Dataset := fun _ => Except.ok dsA

/-- An adapter over `sampleFn`, reference signature taken from `dsA`. -/
def sampleCd : FilePerUserClientData :=
  { client_ids := ["a.rec", "b.rec"]
    create_tf_dataset_fn := sampleFn
    output_types := dsA.output_types
    output_shapes := dsA.output_shapes }

/-- Produces `dsB` for `"b.rec"` and `dsA` elsewhere. -/
def mixedFn : ClientId → Except CollabError Dataset :=
  fun id => if id == "b.rec" then Except.ok dsB else Except.ok dsA

/-- An adapter over `mixedFn`, reference signature taken from `dsA`. -/
def mixedCd : FilePerUserClientData :=
  { client_ids := ["a.rec", "b.rec"]
    create_tf_dataset_fn := mixedFn
    output_types := dsA.output_types
    output_shapes := dsA.output_shapes }

/-- Produces `dsC` (wrong type and wrong shape) for `"c.rec"`, `dsA`
elsewhere. -/
def bothFn : ClientId → Except CollabError Dataset :=
  fun id => if id == "c.rec" then Except.ok dsC else Except.ok dsA

/-- An adapter over `bothFn`, reference signature taken from `dsA`. -/
def bothCd : FilePerUserClientData :=
  { client_ids := ["a.rec", "c.rec"]
    create_tf_dataset_fn := bothFn
    output_types := dsA.output_types
    output_shapes := dsA.output_shapes }

/-- Produces `dsW2` for `"w2"` and `dsW1` elsewhere. -/
def wildFn : ClientId → Except CollabError Dataset :=
  fun id => if id == "w2" then Except.ok dsW2 else Except.ok dsW1

/-- An adapter over `wildFn`, reference signature taken from `dsW1`. -/
def wildCd : FilePerUserClientData :=
  { client_ids := ["w1", "w2"]
    create_tf_dataset_fn := wildFn
    output_types := dsW1.output_types
    output_shapes := dsW1.output_shapes }

/-! ## The claims -/

/-- C1: for every identifier whose dataset, as produced by the conversion
function, has type and shape signatures equal to the reference captured at
construction, `create_tf_dataset_for_client` succeeds and returns exactly
the dataset produced by the conversion function, unchanged — with no
requirement that the identifier belong to the stored collection. -/
theorem create_tf_dataset_for_client_matching (cd : FilePerUserClientData)
    (client_id : ClientId) (ds : Dataset)
    (hf : cd.create_tf_dataset_fn client_id = Except.ok ds)
    (ht : ds.output_types = cd.output_types)
    (hs : ds.output_shapes = cd.output_shapes) :
    cd.create_tf_dataset_for_client client_id = Except.ok ds := by
  simp only [FilePerUserClientData.create_tf_dataset_for_client, hf, ht, hs,
    assert_nested_equal_refl dtypeNe Leaf.dtype dtypeNe_self client_id cd.output_types,
    assert_nested_equal_refl shapeNe Leaf.shape shapeNe_self client_id cd.output_shapes]

/-- C1 witness: `"c.rec"` is not a stored identifier of `sampleCd`, yet its
(matching) dataset is returned unchanged. -/
theorem create_tf_dataset_for_client_matching_witness :
    sampleCd.create_tf_dataset_for_client "c.rec" = Except.ok dsA :=
  create_tf_dataset_for_client_matching sampleCd "c.rec" dsA rfl rfl rfl

/-- C2: construction fails with an `InvalidArgument` error exactly when the
identifier collection is an empty list, or is not a `list` at all, or the
conversion function is not callable; any non-empty list together with a
callable conversion function passes all three argument checks (a remaining
failure can only be the probe's, which is not an `InvalidArgument`). -/
theorem init_invalidArgument_iff (ids : PyIds) (fn : PyFn) :
    (∃ e, FilePerUserClientData.init ids fn = Except.error e
        ∧ e.isInvalidArgument = true)
    ↔ ((∀ l, ids ≠ PyIds.list l) ∨ ids = PyIds.list [] ∨ fn = PyFn.notCallable) := by
  cases ids with
  | list l =>
    cases l with
    | nil =>
      simp [FilePerUserClientData.init, FedError.isInvalidArgument]
    | cons id0 rest =>
      cases fn with
      | callable f =>
        cases hp : f id0 with
        | error e =>
          simp [FilePerUserClientData.init, hp, FedError.isInvalidArgument]
        | ok ds =>
          simp [FilePerUserClientData.init, hp]
      | notCallable =>
        simp [FilePerUserClientData.init, FedError.isInvalidArgument]
  | tuple l =>
    simp [FilePerUserClientData.init, FedError.isInvalidArgument]
  | other =>
    simp [FilePerUserClientData.init, FedError.isInvalidArgument]

/-- C3: construction invokes the conversion function exactly once, on the
first identifier (the invocation trace is `[id0]`); on success it records
the probe dataset's type and shape signatures as the reference exposed by
the accessors, and a probe failure propagates unchanged as a construction
failure. -/
theorem init_probes_first_id_once (id0 : ClientId) (rest : List ClientId)
    (f : ClientId → Except CollabError Dataset) :
    ((FilePerUserClientData.initTrace (PyIds.list (id0 :: rest))
        (PyFn.callable f)).2 = [id0])
    ∧ (∀ ds, f id0 = Except.ok ds →
        FilePerUserClientData.init (PyIds.list (id0 :: rest)) (PyFn.callable f)
          = Except.ok
              { client_ids := id0 :: rest
                create_tf_dataset_fn := f
                output_types := ds.output_types
                output_shapes := ds.output_shapes })
    ∧ (∀ e, f id0 = Except.error e →
        FilePerUserClientData.init (PyIds.list (id0 :: rest)) (PyFn.callable f)
          = Except.error (FedError.collab e)) := by
  refine ⟨?_, ?_, ?_⟩
  · cases hp : f id0 <;> simp [FilePerUserClientData.initTrace, hp]
  · intro ds hds
    simp [FilePerUserClientData.init, hds]
  · intro e he
    simp [FilePerUserClientData.init, he]

/-- C4: when a client's produced signature disagrees with the reference,
`create_tf_dataset_for_client` fails carrying the client identifier and the
two differing leaf values; a nesting-structure disagreement is a distinct
structural failure, and otherwise both trees are flattened depth-first
left-to-right and compared pairwise by position, short-circuiting at the
first unequal pair, whose two values the error reports (later positions are
unconstrained). -/
theorem mismatch_reports_first_difference (cd : FilePerUserClientData)
    (client_id : ClientId) (ds : Dataset)
    (hf : cd.create_tf_dataset_fn client_id = Except.ok ds) :
    (sameStructure ds.output_types cd.output_types = false →
      cd.create_tf_dataset_for_client client_id
        = Except.error FedError.structureMismatch)
    ∧ (∀ i a b, sameStructure ds.output_types cd.output_types = true →
        agreeBefore dtypeNe (flatten ds.output_types) (flatten cd.output_types) i →
        (flatten ds.output_types).get? i = some a →
        (flatten cd.output_types).get? i = some b →
        dtypeNe a b = true →
        cd.create_tf_dataset_for_client client_id
          = Except.error (FedError.mismatch (Leaf.dtype a) (Leaf.dtype b) client_id))
    ∧ (∀ i s t, ds.output_types = cd.output_types →
        sameStructure ds.output_shapes cd.output_shapes = true →
        agreeBefore shapeNe (flatten ds.output_shapes) (flatten cd.output_shapes) i →
        (flatten ds.output_shapes).get? i = some s →
        (flatten cd.output_shapes).get? i = some t →
        shapeNe s t = true →
        cd.create_tf_dataset_for_client client_id
          = Except.error (FedError.mismatch (Leaf.shape s) (Leaf.shape t) client_id)) := by
  refine ⟨?_, ?_, ?_⟩
  · intro hstruct
    simp [FilePerUserClientData.create_tf_dataset_for_client, hf,
      assert_nested_equal, hstruct]
  · intro i a b hstruct hagree ha hb hne
    have hfirst := firstNe_eq_some dtypeNe i _ _ a b hagree ha hb hne
    simp [FilePerUserClientData.create_tf_dataset_for_client, hf,
      assert_nested_equal, hstruct, hfirst]
  · intro i s t htypes hstruct hagree hs ht hne
    have hfirst := firstNe_eq_some shapeNe i _ _ s t hagree hs ht hne
    have h2 : assert_nested_equal shapeNe Leaf.shape client_id
        ds.output_shapes cd.output_shapes
        = Except.error (FedError.mismatch (Leaf.shape s) (Leaf.shape t) client_id) := by
      simp [assert_nested_equal, hstruct, hfirst]
    simp only [FilePerUserClientData.create_tf_dataset_for_client, hf, htypes,
      assert_nested_equal_refl dtypeNe Leaf.dtype dtypeNe_self client_id cd.output_types,
      h2]

/-- C4 witness: `mixedCd`'s client `"b.rec"` produces `int64` where the
reference has `int32`; the error carries both values and the identifier. -/
theorem mismatch_reports_first_difference_witness :
    mixedCd.create_tf_dataset_for_client "b.rec"
      = Except.error (FedError.mismatch (Leaf.dtype "int64") (Leaf.dtype "int32")
          "b.rec") :=
  (mismatch_reports_first_difference mixedCd "b.rec" dsB rfl).2.1 0 "int64" "int32"
    rfl (fun j hj _ _ _ _ => absurd hj (Nat.not_lt_zero j)) rfl rfl rfl

/-- C5: wildcard dimension placeholders are not compared for exact
equality: a client whose dataset's shape signature differs from the
reference only in wildcard placeholders occupying the same structural
positions (every concrete leaf value equal) is accepted, and the dataset is
returned; a mismatch is flagged only for differing concrete leaf values. -/
theorem wildcard_dims_not_compared (cd : FilePerUserClientData)
    (client_id : ClientId) (ds : Dataset)
    (hf : cd.create_tf_dataset_fn client_id = Except.ok ds)
    (ht : ds.output_types = cd.output_types)
    (hstruct : sameStructure ds.output_shapes cd.output_shapes = true)
    (hleaves : List.Forall₂ (fun s t => shapeCompat s t = true)
      (flatten ds.output_shapes) (flatten cd.output_shapes)) :
    cd.create_tf_dataset_for_client client_id = Except.ok ds := by
  have hnone : firstNe shapeNe (flatten ds.output_shapes) (flatten cd.output_shapes)
      = none :=
    firstNe_none_of_forall₂ shapeNe _ _
      (hleaves.imp fun a b hst => shapeNe_eq_false_of_compat a b hst)
  have h2 : assert_nested_equal shapeNe Leaf.shape client_id
      ds.output_shapes cd.output_shapes = Except.ok () := by
    simp [assert_nested_equal, hstruct, hnone]
  simp only [FilePerUserClientData.create_tf_dataset_for_client, hf, ht,
    assert_nested_equal_refl dtypeNe Leaf.dtype dtypeNe_self client_id cd.output_types,
    h2]

/-- C5 witness: `dsW2`'s shape `[?, 5]` carries a different wildcard
placeholder object than the reference `dsW1`'s `[?, 5]`; retrieval still
succeeds. -/
theorem wildcard_dims_not_compared_witness :
    wildCd.create_tf_dataset_for_client "w2" = Except.ok dsW2 :=
  wildcard_dims_not_compared wildCd "w2" dsW2 rfl rfl rfl
    (List.Forall₂.cons (by decide) List.Forall₂.nil)

/-- The instrumented call is the plain call paired with the unchanged
fields and the one-element invocation trace. -/
theorem create_tf_dataset_for_client_traced_eq (cd : FilePerUserClientData)
    (client_id : ClientId) :
    cd.create_tf_dataset_for_client_traced client_id
      = (cd.create_tf_dataset_for_client client_id, cd, [client_id]) := by
  unfold FilePerUserClientData.create_tf_dataset_for_client_traced
    FilePerUserClientData.create_tf_dataset_for_client
  cases hp : cd.create_tf_dataset_fn client_id with
  | error e => rfl
  | ok ds =>
    dsimp only
    cases h1 : assert_nested_equal dtypeNe Leaf.dtype client_id ds.output_types
        cd.output_types with
    | error e => rfl
    | ok u =>
      dsimp only
      cases h2 : assert_nested_equal shapeNe Leaf.shape client_id ds.output_shapes
          cd.output_shapes with
      | error e => rfl
      | ok u => rfl

/-- C7: `create_tf_dataset_for_client` never mutates the adapter's fields
(the instrumented call returns them unchanged), holds no cache (each call's
invocation trace is exactly one fresh application of the conversion
function to the requested identifier), and with the (deterministic) stored
conversion function repeated retrievals of the same identifier yield equal
— in particular signature-equivalent — results. -/
theorem create_tf_dataset_for_client_pure (cd : FilePerUserClientData)
    (client_id : ClientId) :
    ((cd.create_tf_dataset_for_client_traced client_id).2.1 = cd)
    ∧ ((cd.create_tf_dataset_for_client_traced client_id).2.2 = [client_id])
    ∧ ((cd.create_tf_dataset_for_client_traced client_id).1
        = cd.create_tf_dataset_for_client client_id)
    ∧ (∀ ds1 ds2, cd.create_tf_dataset_for_client client_id = Except.ok ds1 →
        cd.create_tf_dataset_for_client client_id = Except.ok ds2 →
        ds1 = ds2 ∧ ds1.output_types = ds2.output_types
          ∧ ds1.output_shapes = ds2.output_shapes) := by
  have ht := create_tf_dataset_for_client_traced_eq cd client_id
  refine ⟨by rw [ht], by rw [ht], by rw [ht], ?_⟩
  intro ds1 ds2 h1 h2
  rw [h1] at h2
  have h3 : ds1 = ds2 := Except.ok.inj h2
  exact ⟨h3, by rw [h3], by rw [h3]⟩

/-- Projecting the keys back out of the filename-to-path pairing gives the
filenames. -/
theorem map_fst_pairing (path : String) (entries : List String) :
    ((entries.map fun f => (f, joinPath path f)).map Prod.fst) = entries := by
  induction entries with
  | nil => rfl
  | cons e es ih => simp only [List.map_cons, ih]

/-- C6: for a directory listing of N (distinct) entries,
`create_from_dir` yields an adapter whose identifier collection is exactly
the N entry filenames, whose conversion function maps each listed
identifier to the file-to-dataset constructor applied to the joined full
path; an empty directory yields an empty identifier list and construction
fails with the non-emptiness `InvalidArgument`. -/
theorem create_from_dir_spec (path : String) (entries : List String)
    (g : String → Except CollabError Dataset) (hnd : entries.Nodup) :
    (entries = [] →
      FilePerUserClientData.create_from_dir path entries g
        = Except.error FedError.invalidArgumentEmpty)
    ∧ (∀ cd, FilePerUserClientData.create_from_dir path entries g = Except.ok cd →
        cd.client_ids = entries ∧ cd.client_ids.length = entries.length ∧
        ∀ f ∈ entries, cd.create_tf_dataset_fn f = g (joinPath path f)) := by
  constructor
  · intro h
    subst h
    rfl
  · intro cd hok
    simp only [FilePerUserClientData.create_from_dir] at hok
    obtain ⟨hids, hfn⟩ := init_ok_inv _ _ _ hok
    have hkeys : (dictComp path entries).map Prod.fst = entries := by
      rw [dictComp_eq_map path entries hnd]
      exact map_fst_pairing path entries
    have hcl : cd.client_ids = entries := by rw [hids, hkeys]
    refine ⟨hcl, by rw [hcl], ?_⟩
    intro f hf
    rw [hfn]
    dsimp only
    rw [dictComp_eq_map path entries hnd, dictLookup_map_of_mem path entries f hf]

/-- C6 witness: a two-file directory yields exactly those two identifiers
and the joined full paths. -/
theorem create_from_dir_spec_witness :
    ((["a.rec", "b.rec"] : List String) = [] →
      FilePerUserClientData.create_from_dir "/data" ["a.rec", "b.rec"]
          (fun _ => Except.ok dsA)
        = Except.error FedError.invalidArgumentEmpty)
    ∧ (∀ cd, FilePerUserClientData.create_from_dir "/data" ["a.rec", "b.rec"]
          (fun _ => Except.ok dsA) = Except.ok cd →
        cd.client_ids = ["a.rec", "b.rec"]
          ∧ cd.client_ids.length = (["a.rec", "b.rec"] : List String).length ∧
        ∀ f ∈ (["a.rec", "b.rec"] : List String),
          cd.create_tf_dataset_fn f
            = (fun _ => Except.ok dsA) (joinPath "/data" f)) :=
  create_from_dir_spec "/data" ["a.rec", "b.rec"] (fun _ => Except.ok dsA) (by decide)

/-- The adapter `create_from_dir "/data" ["a.rec"]` builds over the constant
file-to-dataset constructor producing `dsA`. -/
def dirCd : FilePerUserClientData :=
  { client_ids := ["a.rec"]
    create_tf_dataset_fn := fun id =>
      match dictLookup (dictComp "/data" ["a.rec"]) id with
      | some p => (fun _ => Except.ok dsA) p
      | none => Except.error (CollabError.keyError id)
    output_types := dsA.output_types
    output_shapes := dsA.output_shapes }

/-- C8: on an adapter built by the directory factory, an identifier that is
not one of the listed filenames makes the factory's closure raise `KeyError`
from the identifier-to-path dictionary, before any dataset is constructed
or validated, and `create_tf_dataset_for_client` propagates it. -/
theorem create_from_dir_unknown_id_keyerror (path : String) (entries : List String)
    (g : String → Except CollabError Dataset) (cd : FilePerUserClientData)
    (id : ClientId)
    (hok : FilePerUserClientData.create_from_dir path entries g = Except.ok cd)
    (hid : id ∉ entries) :
    cd.create_tf_dataset_fn id = Except.error (CollabError.keyError id)
    ∧ cd.create_tf_dataset_for_client id
        = Except.error (FedError.collab (CollabError.keyError id)) := by
  simp only [FilePerUserClientData.create_from_dir] at hok
  obtain ⟨hids, hfn⟩ := init_ok_inv _ _ _ hok
  have hnone : dictLookup (dictComp path entries) id = none := by
    apply dictLookup_none_of_not_key
    intro hmem
    exact hid (dictComp_keys_subset path entries id hmem)
  have hcall : cd.create_tf_dataset_fn id = Except.error (CollabError.keyError id) := by
    rw [hfn]
    dsimp only
    rw [hnone]
  refine ⟨hcall, ?_⟩
  simp only [FilePerUserClientData.create_tf_dataset_for_client, hcall]

/-- C8 witness: `"z.rec"` is not a file of the listed directory; retrieval
fails with the propagated `KeyError` naming it. -/
theorem create_from_dir_unknown_id_keyerror_witness :
    dirCd.create_tf_dataset_fn "z.rec" = Except.error (CollabError.keyError "z.rec")
    ∧ dirCd.create_tf_dataset_for_client "z.rec"
        = Except.error (FedError.collab (CollabError.keyError "z.rec")) :=
  create_from_dir_unknown_id_keyerror "/data" ["a.rec"] (fun _ => Except.ok dsA)
    dirCd "z.rec" rfl (by decide)

/-- C9: the constructor's argument checks run in a fixed order — the
`list`-kind check precedes the emptiness check (so any non-list argument,
an empty tuple included, fails with the wrong-kind error), and the
callable check precedes the probe (a non-callable conversion function is
rejected with the callable-check error and the invocation trace stays
empty). -/
theorem constructor_checks_ordered (l : List ClientId) (fn : PyFn) (id0 : ClientId)
    (rest : List ClientId) :
    (FilePerUserClientData.init (PyIds.tuple l) fn
        = Except.error FedError.invalidArgumentNotList)
    ∧ (FilePerUserClientData.init PyIds.other fn
        = Except.error FedError.invalidArgumentNotList)
    ∧ (FilePerUserClientData.init (PyIds.list (id0 :: rest)) PyFn.notCallable
        = Except.error FedError.invalidArgumentNotCallable)
    ∧ ((FilePerUserClientData.initTrace (PyIds.list (id0 :: rest)) PyFn.notCallable).2
        = []) :=
  ⟨rfl, rfl, rfl, rfl⟩

/-- An error returned by `_assert_nested_equal` is the structure failure or
a leaf mismatch of the compared kind, carrying the client identifier. -/
theorem assert_nested_equal_error_shape {α : Type} (ne : α → α → Bool)
    (toLeaf : α → Leaf) (client_id : ClientId) (x y : Nest α) (e : FedError)
    (h : assert_nested_equal ne toLeaf client_id x y = Except.error e) :
    e = FedError.structureMismatch
      ∨ ∃ a b, e = FedError.mismatch (toLeaf a) (toLeaf b) client_id := by
  unfold assert_nested_equal at h
  split at h
  · split at h
    · right
      exact ⟨_, _, (Except.error.inj h).symm⟩
    · exact absurd h (fun hh => Except.noConfusion hh)
  · left
    exact (Except.error.inj h).symm

/-- C10: the element-type signature is validated before the element-shape
signature, so a client whose dataset disagrees with the reference in both
gets the type comparison's error (a structure failure or a type-leaf
mismatch naming the client) and the shape comparison is never consulted. -/
theorem types_validated_before_shapes (cd : FilePerUserClientData)
    (client_id : ClientId) (ds : Dataset) (e : FedError)
    (hf : cd.create_tf_dataset_fn client_id = Except.ok ds)
    (ht : assert_nested_equal dtypeNe Leaf.dtype client_id ds.output_types
        cd.output_types = Except.error e)
    (_hs : assert_nested_equal shapeNe Leaf.shape client_id ds.output_shapes
        cd.output_shapes ≠ Except.ok ()) :
    cd.create_tf_dataset_for_client client_id = Except.error e
    ∧ (e = FedError.structureMismatch
        ∨ ∃ a b, e = FedError.mismatch (Leaf.dtype a) (Leaf.dtype b) client_id) := by
  constructor
  · simp only [FilePerUserClientData.create_tf_dataset_for_client, hf, ht]
  · exact assert_nested_equal_error_shape dtypeNe Leaf.dtype client_id _ _ e ht

/-- C10 witness: `"c.rec"`'s dataset has both the wrong element type and
the wrong shape; the reported error is the type mismatch. -/
theorem types_validated_before_shapes_witness :
    bothCd.create_tf_dataset_for_client "c.rec"
      = Except.error (FedError.mismatch (Leaf.dtype "int64") (Leaf.dtype "int32")
          "c.rec")
    ∧ (FedError.mismatch (Leaf.dtype "int64") (Leaf.dtype "int32") "c.rec"
          = FedError.structureMismatch
        ∨ ∃ a b, FedError.mismatch (Leaf.dtype "int64") (Leaf.dtype "int32") "c.rec"
            = FedError.mismatch (Leaf.dtype a) (Leaf.dtype b) "c.rec") :=
  types_validated_before_shapes bothCd "c.rec" dsC
    (FedError.mismatch (Leaf.dtype "int64") (Leaf.dtype "int32") "c.rec") rfl rfl
    (fun h => Except.noConfusion h)
